import Mathlib

/-!
Verification of the FFmpegSwiftSDK repository's umbrella header
`Sources/CFFmpeg/include/shim.h` against its specification.

The repository consists of umbrella C headers that aggregate include
directives for the FFmpeg library suite.  We embed the header file as the
literal list of its text lines, parse each line into a preprocessor
directive, and give a small operational semantics of C preprocessing
(include guards, macro definition, emission of include directives) in
order to state and prove the spec's structural claims.
-/

/-- A parsed line of a C header file, at the granularity the umbrella
headers use: include-guard conditionals, object-like macro definitions,
quoted include directives, blank lines, and anything else. -/
inductive PPLine where
  | ifndefLine (name : String)
  | defineLine (name : String)
  | includeLine (path : String)
  | endifLine
  | blankLine
  | otherLine (text : String)
deriving DecidableEq, Repr

/-- Matches a leading character sequence: if the second list starts with
the first, returns the remainder, otherwise none. -/
def matchLeading : List Char → List Char → Option (List Char)
  | [], rest => some rest
  | _ :: _, [] => none
  | p :: ps, c :: cs => if c = p then matchLeading ps cs else none

/-- Parses one source line of the header into a directive.  A line is an
include-guard opener, the guard macro definition, a quoted include, the
guard closer (possibly followed by a trailing comment), blank, or other. -/
def parseLine (s : String) : PPLine :=
  let l := s.toList
  if l = [] then .blankLine
  else
    match matchLeading ("#ifndef ").toList l with
    | some n => .ifndefLine (String.mk n)
    | none =>
    match matchLeading ("#define ").toList l with
    | some n => .defineLine (String.mk n)
    | none =>
    match matchLeading ("#include \"").toList l with
    | some r => .includeLine (String.mk (r.takeWhile (fun c => c ≠ '"')))
    | none =>
    match matchLeading ("#endif").toList l with
    | some _ => .endifLine
    | none => .otherLine s

/-- The literal lines of `Sources/CFFmpeg/include/shim.h`, the
hardware-aware umbrella header (21 newline-terminated lines). -/
def shimLines : List String :=
  [ "#ifndef CFFmpeg_shim_h"
  , "#define CFFmpeg_shim_h"
  , ""
  , "#include \"libavformat/avformat.h\""
  , "#include \"libavcodec/avcodec.h\""
  , "#include \"libavutil/avutil.h\""
  , "#include \"libavutil/opt.h\""
  , "#include \"libavutil/channel_layout.h\""
  , "#include \"libavutil/imgutils.h\""
  , "#include \"libavutil/samplefmt.h\""
  , "#include \"libavutil/mathematics.h\""
  , "#include \"libavutil/error.h\""
  , "#include \"libavutil/hwcontext.h\""
  , "#include \"libavutil/hwcontext_videotoolbox.h\""
  , "#include \"libswresample/swresample.h\""
  , "#include \"libavfilter/avfilter.h\""
  , "#include \"libavfilter/buffersrc.h\""
  , "#include \"libavfilter/buffersink.h\""
  , ""
  , "#endif /* CFFmpeg_shim_h */"
  , "" ]

/-- Modelled from the spec: the second umbrella header variant is absent
from the given sources; the spec states the repository holds two
nearly-identical umbrella headers whose include lists differ only in that
the hardware-aware one additionally includes the generic hardware-context
header and the platform-specific (VideoToolbox) hardware-acceleration
header.  Its lines are therefore the hardware-aware header's lines with
exactly those two include lines removed. -/
def shimNoHWLines : List String :=
  [ "#ifndef CFFmpeg_shim_h"
  , "#define CFFmpeg_shim_h"
  , ""
  , "#include \"libavformat/avformat.h\""
  , "#include \"libavcodec/avcodec.h\""
  , "#include \"libavutil/avutil.h\""
  , "#include \"libavutil/opt.h\""
  , "#include \"libavutil/channel_layout.h\""
  , "#include \"libavutil/imgutils.h\""
  , "#include \"libavutil/samplefmt.h\""
  , "#include \"libavutil/mathematics.h\""
  , "#include \"libavutil/error.h\""
  , "#include \"libswresample/swresample.h\""
  , "#include \"libavfilter/avfilter.h\""
  , "#include \"libavfilter/buffersrc.h\""
  , "#include \"libavfilter/buffersink.h\""
  , ""
  , "#endif /* CFFmpeg_shim_h */"
  , "" ]

/-- The repository's umbrella header files: the hardware-aware variant
present under the sources, and the spec-modelled variant without the
hardware-acceleration headers. -/
def repoHeaderFiles : List (List String) := [shimLines, shimNoHWLines]

/-- The parsed directives of the hardware-aware header. -/
def shimDirectives : List PPLine := shimLines.map parseLine

/-- The include paths requested by a header file, in order. -/
def includesOf (lines : List String) : List String :=
  lines.filterMap (fun l =>
    match parseLine l with
    | .includeLine p => some p
    | _ => none)

/-- The include paths of the hardware-aware header, in order. -/
def shimIncludes : List String := includesOf shimLines

/-- The include paths of the spec-modelled hardware-free variant. -/
def shimNoHWIncludes : List String := includesOf shimNoHWLines

/-- The two hardware-acceleration headers that distinguish the variants. -/
def hwHeaders : List String :=
  ["libavutil/hwcontext.h", "libavutil/hwcontext_videotoolbox.h"]

/-- Whether a parsed line is an include directive. -/
def PPLine.isInclude : PPLine → Bool
  | .includeLine _ => true
  | _ => false

/-- Whether a parsed line belongs to the include guard on macro g. -/
def PPLine.isGuardOf (g : String) : PPLine → Bool
  | .ifndefLine n => n = g
  | .defineLine n => n = g
  | .endifLine => true
  | _ => false

/-- Whether a parsed line is conditional-compilation machinery. -/
def PPLine.isConditional : PPLine → Bool
  | .ifndefLine _ => true
  | .endifLine => true
  | _ => false

/-- Whether a parsed line defines a macro. -/
def PPLine.isDefLine : PPLine → Bool
  | .defineLine _ => true
  | _ => false

/-- Whether a parsed line is blank. -/
def PPLine.isBlank : PPLine → Bool
  | .blankLine => true
  | _ => false

/-- The state of a translation unit while preprocessing: the set of
defined macros and the sequence of texts delivered to the unit (for these
headers, the include paths handed to the compiler). -/
structure PPState where
  defined : List String
  output : List String
deriving DecidableEq, Repr

/-- One pass of the preprocessor over a directive list.  The numeric
argument is the depth of enclosing failed conditionals: while it is
positive, directives are skipped, with nested conditionals tracked. -/
def processFrom : List PPLine → Nat → PPState → PPState
  | [], _, st => st
  | .ifndefLine n :: rest, 0, st =>
      if n ∈ st.defined then processFrom rest 1 st else processFrom rest 0 st
  | .ifndefLine _ :: rest, k+1, st => processFrom rest (k+2) st
  | .endifLine :: rest, 0, st => processFrom rest 0 st
  | .endifLine :: rest, k+1, st => processFrom rest k st
  | .defineLine n :: rest, 0, st => processFrom rest 0 ⟨n :: st.defined, st.output⟩
  | .defineLine _ :: rest, k+1, st => processFrom rest (k+1) st
  | .includeLine p :: rest, 0, st => processFrom rest 0 ⟨st.defined, st.output ++ [p]⟩
  | .includeLine _ :: rest, k+1, st => processFrom rest (k+1) st
  | .blankLine :: rest, k, st => processFrom rest k st
  | .otherLine t :: rest, 0, st => processFrom rest 0 ⟨st.defined, st.output ++ [t]⟩
  | .otherLine _ :: rest, k+1, st => processFrom rest (k+1) st

/-- Preprocesses a whole file starting outside any conditional. -/
def processFile (f : List PPLine) (st : PPState) : PPState := processFrom f 0 st

/-- The effect on a translation unit of including shim.h once. -/
def includeShim (st : PPState) : PPState := processFile shimDirectives st

/-- The declaration groups the spec names for the umbrella headers:
container/format, codec, generic utilities, option parsing, channel-layout
description, image-buffer utilities, sample-format description,
mathematical helpers, error-code definitions, hardware-context,
platform-specific hardware-context, audio resampling, and filter-graph
construction, source, and sink utilities. -/
inductive DeclGroup where
  | containerFormat
  | codec
  | genericUtil
  | optionParsing
  | channelLayout
  | imageBuffer
  | sampleFormat
  | mathHelpers
  | errorCodes
  | hwContext
  | hwContextPlatform
  | audioResampling
  | filterGraph
  | filterSource
  | filterSink
deriving DecidableEq, Repr

/-- Modelled from the spec: the external FFmpeg headers are not part of
this repository, so each included header is modelled as providing at
least one representative declaration of the declaration group the spec
assigns to it (spec sections 6 and 8).  Unknown paths provide nothing. -/
def headerDecls (p : String) : List (DeclGroup × String) :=
  if p = "libavformat/avformat.h" then [(.containerFormat, "format context")]
  else if p = "libavcodec/avcodec.h" then [(.codec, "codec context")]
  else if p = "libavutil/avutil.h" then [(.genericUtil, "utility function")]
  else if p = "libavutil/opt.h" then [(.optionParsing, "option-setting function")]
  else if p = "libavutil/channel_layout.h" then [(.channelLayout, "channel-layout helper")]
  else if p = "libavutil/imgutils.h" then [(.imageBuffer, "image utility")]
  else if p = "libavutil/samplefmt.h" then [(.sampleFormat, "sample-format helper")]
  else if p = "libavutil/mathematics.h" then [(.mathHelpers, "math helper")]
  else if p = "libavutil/error.h" then [(.errorCodes, "error macro")]
  else if p = "libavutil/hwcontext.h" then [(.hwContext, "hardware-context type")]
  else if p = "libavutil/hwcontext_videotoolbox.h" then
    [(.hwContextPlatform, "platform-specific hardware-context type")]
  else if p = "libswresample/swresample.h" then [(.audioResampling, "resampling context")]
  else if p = "libavfilter/avfilter.h" then [(.filterGraph, "filter-graph type")]
  else if p = "libavfilter/buffersrc.h" then [(.filterSource, "filter-source function")]
  else if p = "libavfilter/buffersink.h" then [(.filterSink, "filter-sink function")]
  else []

/-- The declaration group a header path provides, if any. -/
def headerGroup (p : String) : Option DeclGroup := (headerDecls p).head?.map Prod.fst

/-- The external declarations visible to a translation unit after it
includes the given header file once. -/
def visibleDecls (lines : List String) : List (DeclGroup × String) :=
  (includesOf lines).flatMap headerDecls

/-- The spec's ordered list of declaration groups for the hardware-aware
variant, transcribed from the spec's wording. -/
def specOrderHW : List DeclGroup :=
  [.containerFormat, .codec, .genericUtil, .optionParsing, .channelLayout,
   .imageBuffer, .sampleFormat, .mathHelpers, .errorCodes, .hwContext,
   .hwContextPlatform, .audioResampling, .filterGraph, .filterSource, .filterSink]

/-- The spec's ordered list of declaration groups for the variant without
the hardware-context headers. -/
def specOrderNoHW : List DeclGroup :=
  [.containerFormat, .codec, .genericUtil, .optionParsing, .channelLayout,
   .imageBuffer, .sampleFormat, .mathHelpers, .errorCodes,
   .audioResampling, .filterGraph, .filterSource, .filterSink]

/-- The combined number of source lines of the repository's two umbrella
headers. -/
def combinedLineCount : Nat := shimLines.length + shimNoHWLines.length

/-- The parsed form of shim.h, established once so proofs about the
preprocessor can work on the explicit directive list. -/
theorem shimDirectives_eq :
    shimDirectives =
      [.ifndefLine "CFFmpeg_shim_h", .defineLine "CFFmpeg_shim_h", .blankLine,
       .includeLine "libavformat/avformat.h",
       .includeLine "libavcodec/avcodec.h",
       .includeLine "libavutil/avutil.h",
       .includeLine "libavutil/opt.h",
       .includeLine "libavutil/channel_layout.h",
       .includeLine "libavutil/imgutils.h",
       .includeLine "libavutil/samplefmt.h",
       .includeLine "libavutil/mathematics.h",
       .includeLine "libavutil/error.h",
       .includeLine "libavutil/hwcontext.h",
       .includeLine "libavutil/hwcontext_videotoolbox.h",
       .includeLine "libswresample/swresample.h",
       .includeLine "libavfilter/avfilter.h",
       .includeLine "libavfilter/buffersrc.h",
       .includeLine "libavfilter/buffersink.h",
       .blankLine, .endifLine, .blankLine] := by decide

/-- If the guard macro is already defined, a further inclusion of shim.h
leaves the translation unit's state unchanged. -/
theorem includeShim_of_defined (st : PPState) (h : "CFFmpeg_shim_h" ∈ st.defined) :
    includeShim st = st := by
  simp [includeShim, processFile, shimDirectives_eq, processFrom, h]

/-- After any inclusion of shim.h the guard macro is defined. -/
theorem includeShim_defines_guard (st : PPState) :
    "CFFmpeg_shim_h" ∈ (includeShim st).defined := by
  by_cases h : "CFFmpeg_shim_h" ∈ st.defined
  · rw [includeShim_of_defined st h]; exact h
  · simp [includeShim, processFile, shimDirectives_eq, processFrom, h]

/-- Including shim.h is idempotent on the preprocessing state. -/
theorem includeShim_idem (st : PPState) :
    includeShim (includeShim st) = includeShim st :=
  includeShim_of_defined _ (includeShim_defines_guard st)

/-- Claim C1: the umbrella header's include directives occur in exactly
the order the spec lists for the hardware-aware variant —
container/format, codec, generic utilities, option parsing,
channel-layout description, image-buffer utilities, sample-format
description, mathematical helpers, error-code definitions,
hardware-context, platform-specific hardware-context, audio resampling,
and filter-graph construction, source, and sink utilities — each group
present and in that relative order. -/
theorem shim_include_order_matches_spec :
    shimIncludes.map headerGroup = specOrderHW.map some := by decide

/-- Claim C2: the repository holds exactly two umbrella headers; the
shared part of the hardware-aware header's include list is exactly the
hardware-free variant's list in the same order, and the surplus is
exactly the generic hardware-context header and the platform-specific
hardware-acceleration backend header.  The hardware-free variant is
line-for-line the hardware-aware header minus those two include lines. -/
theorem repo_two_header_variants_differ_only_in_hw :
    repoHeaderFiles.length = 2 ∧
    shimIncludes.filter (fun p => decide (p ∈ shimNoHWIncludes)) = shimNoHWIncludes ∧
    shimIncludes.filter (fun p => decide (p ∉ shimNoHWIncludes)) = hwHeaders ∧
    shimNoHWLines =
      shimLines.filter (fun l =>
        match parseLine l with
        | .includeLine p => decide (p ∉ hwHeaders)
        | _ => true) := by decide

/-- Claim C3: after a single inclusion of either header variant, every
declaration group that variant's spec list names has at least one visible
declaration — for the hardware-aware variant all fifteen groups including
the hardware-context ones, for the other variant the thirteen
hardware-free groups. -/
theorem all_declaration_groups_resolve :
    (∀ g ∈ specOrderHW, ∃ d ∈ visibleDecls shimLines, d.1 = g) ∧
    (∀ g ∈ specOrderNoHW, ∃ d ∈ visibleDecls shimNoHWLines, d.1 = g) := by decide

/-- Witness for C3 at a concrete group: the container/format group has a
visible declaration after including shim.h. -/
theorem all_declaration_groups_resolve_witness :
    ∃ d ∈ visibleDecls shimLines, d.1 = DeclGroup.containerFormat :=
  all_declaration_groups_resolve.1 DeclGroup.containerFormat (by decide)

/-- Claim C4: every line of shim.h is an include directive, a line of the
include guard, or blank — no C declaration, definition, or other logic of
its own — and what a fresh translation unit receives from including it is
exactly the fifteen external include paths, so the named external
declarations become visible and nothing else originates here. -/
theorem shim_introduces_only_includes :
    shimLines.all (fun l =>
      (parseLine l).isInclude || (parseLine l).isGuardOf "CFFmpeg_shim_h" ||
        (parseLine l).isBlank) = true ∧
    (includeShim ⟨[], []⟩).output = shimIncludes ∧
    (visibleDecls shimLines).map Prod.fst = specOrderHW := by decide

/-- Counterexample to claim C5 as stated: the first line of shim.h,
present in the file, is the include-guard conditional, a directive that
is neither an include directive nor blank, so not every line of content
is an include directive. -/
theorem shim_line_not_include_counterexample :
    "#ifndef CFFmpeg_shim_h" ∈ shimLines ∧
    parseLine "#ifndef CFFmpeg_shim_h" = PPLine.ifndefLine "CFFmpeg_shim_h" ∧
    (parseLine "#ifndef CFFmpeg_shim_h").isInclude = false ∧
    (parseLine "#ifndef CFFmpeg_shim_h").isBlank = false ∧
    ¬ (∀ l ∈ shimLines,
        (parseLine l).isBlank = true ∨ (parseLine l).isInclude = true) := by decide

/-- Claim C5 amended: every line of the header is an include directive,
one of the three include-guard directives on the guard macro, or blank;
and every non-blank line strictly inside the guard body is an include
directive, so the guarded content is a pure include list with no other
directives or logic. -/
theorem shim_lines_are_includes_or_guard :
    shimLines.all (fun l =>
      (parseLine l).isInclude || (parseLine l).isGuardOf "CFFmpeg_shim_h" ||
        (parseLine l).isBlank) = true ∧
    ((shimLines.drop 2).take 17).all (fun l =>
      (parseLine l).isInclude || (parseLine l).isBlank) = true := by decide

/-- Claim C6: the combined line count of the repository's two umbrella
headers is 40 — 21 lines for the hardware-aware header and 19 for the
spec-modelled variant without the two hardware include lines — which is
within ten percent of the spec's figure of roughly 37 lines. -/
theorem combined_line_count_roughly_37 :
    combinedLineCount = 40 ∧
    (combinedLineCount - 37) * 10 ≤ 37 ∧
    (37 - combinedLineCount) * 10 ≤ 37 := by decide

/-- Claim C7: the only macro shim.h defines is its include guard, so no
error code or error macro originates in the file; the error-code group is
provided by exactly one include, the external library's error header, and
every visible error-group declaration comes from that header. -/
theorem error_declarations_from_external_header_only :
    shimDirectives.filter PPLine.isDefLine = [PPLine.defineLine "CFFmpeg_shim_h"] ∧
    shimIncludes.filter (fun p => decide (headerGroup p = some DeclGroup.errorCodes)) =
      ["libavutil/error.h"] ∧
    (visibleDecls shimLines).filter (fun d => decide (d.1 = DeclGroup.errorCodes)) =
      headerDecls "libavutil/error.h" := by decide

/-- Claim C8: inclusion of shim.h is idempotent — because the body is
wrapped in the include guard on CFFmpeg_shim_h, including the file any
positive number of times leaves a translation unit in exactly the state a
single inclusion produces, whatever the starting state. -/
theorem include_idempotent_iterate :
    ∀ (st : PPState) (n : Nat), includeShim^[n + 1] st = includeShim st := by
  intro st n
  induction n with
  | zero => rfl
  | succ n ih =>
      rw [Function.iterate_succ_apply', ih]
      exact includeShim_idem st

/-- Witness for C8 at a concrete state and count: three inclusions of
shim.h into a fresh translation unit equal one inclusion. -/
theorem include_idempotent_iterate_witness :
    includeShim^[3] ⟨[], []⟩ = includeShim ⟨[], []⟩ :=
  include_idempotent_iterate ⟨[], []⟩ 2

/-- Claim C9: apart from the outer include guard, shim.h contains no
conditional compilation — its only conditional directives are the guard's
ifndef/endif pair — so on any first inclusion (guard macro not yet
defined) every include is emitted unconditionally; in particular the
platform-specific VideoToolbox hardware-acceleration header is pulled in
for every such translation unit. -/
theorem shim_unconditional_includes (st : PPState)
    (h : "CFFmpeg_shim_h" ∉ st.defined) :
    shimDirectives.filter PPLine.isConditional =
      [PPLine.ifndefLine "CFFmpeg_shim_h", PPLine.endifLine] ∧
    "libavutil/hwcontext_videotoolbox.h" ∈ (includeShim st).output := by
  refine ⟨by decide, ?_⟩
  simp [includeShim, processFile, shimDirectives_eq, processFrom, h]

/-- Witness for C9: in a fresh translation unit, where the guard macro is
not defined, including shim.h emits the VideoToolbox header. -/
theorem shim_unconditional_includes_witness :
    shimDirectives.filter PPLine.isConditional =
      [PPLine.ifndefLine "CFFmpeg_shim_h", PPLine.endifLine] ∧
    "libavutil/hwcontext_videotoolbox.h" ∈ (includeShim ⟨[], []⟩).output :=
  shim_unconditional_includes ⟨[], []⟩ (by decide)

/-- Claim C10: the include list of shim.h holds fifteen external header
paths and is duplicate-free — no external header is requested twice by
the aggregator itself. -/
theorem shim_includes_nodup :
    shimIncludes.length = 15 ∧ shimIncludes.Nodup := by decide
